import Mathlib

/-!
Shallow embedding of the source-ground-hitl repository (src/app.py, with the
variant src/app_backup.py where the claims cite it).

The program is a Streamlit script.  Its observable core is a state machine
over the session-state dictionary (fields step, topic, research_data,
ai_summary, verification_status, experiment_mode), the CSV log file
"experiment_results.csv", and the text rendered on each page.  We embed the
button handlers as pure transition functions, the rendered review page as a
list of text fragments, and the CSV file as a list of rows.
-/

namespace App

/-- One search hit returned by the Tavily evidence lookup:
the dictionary keys the code reads are url and content. -/
structure Evidence where
  url : String
  content : String
  deriving DecidableEq, Repr

/-- The step field of the session state: the three pages of app.py
(step 1 input, step 2 review, step 3 verified). -/
inductive Step where
  | input
  | review
  | verified
  deriving DecidableEq, Repr

/-- The session-state dictionary of app.py (lines 47-58). -/
structure SessionState where
  step : Step
  topic : String
  research_data : Option Evidence
  ai_summary : String
  verification_status : Option String
  experiment_mode : String
  deriving DecidableEq, Repr

/-- The defaults installed by the session-state setup block
(app.py lines 47-58). -/
def initialState : SessionState :=
  { step := Step.input
    topic := ""
    research_data := none
    ai_summary := ""
    verification_status := none
    experiment_mode := "Source-Grounded (Experimental)" }

/-- Outcome of the tavily.search call: an exception, an empty results list,
or one search hit (max_results=1). -/
inductive LookupResult where
  | failure (msg : String)
  | empty
  | found (e : Evidence)
  deriving DecidableEq, Repr

/-- Outcome of the llm.invoke call: an exception or a claim string. -/
inductive ExtractResult where
  | failure (msg : String)
  | ok (claim : String)
  deriving DecidableEq, Repr

/-- The Start Agent click handler of app.py (lines 88-119).
Python runs the body top to bottom inside try/except Exception:
the empty-topic guard fires first; a search failure is caught before any
session-state write; an empty results list reports an error and stops;
otherwise topic and research_data are assigned (lines 100-101) BEFORE the
llm.invoke call, so an extraction failure is caught with those two fields
already written; on success ai_summary is stored and step becomes review.
Returns the new state and the message reported to the operator, if any. -/
def startAgent (s : SessionState) (topic_input : String) (lookup : LookupResult)
    (extract : ExtractResult) : SessionState × Option String :=
  if topic_input = "" then
    (s, some "Please enter a topic.")
  else
    match lookup with
    | LookupResult.failure msg => (s, some ("Error: " ++ msg))
    | LookupResult.empty => (s, some "No results found. Try a different topic.")
    | LookupResult.found e =>
      let s1 := { s with topic := topic_input, research_data := some e }
      match extract with
      | ExtractResult.failure msg => (s1, some ("Error: " ++ msg))
      | ExtractResult.ok c =>
        ({ s1 with ai_summary := c, step := Step.review }, none)

/-- The log_to_csv helper of app.py (lines 169-179): one row
[timestamp, topic, ai_summary, research_data[url], verdict, experiment_mode].
The row dereferences research_data[url]; when research_data is None the
Python dict access raises, so the embedding returns none in that case. -/
def log_to_csv (s : SessionState) (ts verdict : String) : Option (List String) :=
  s.research_data.map (fun e =>
    [ts, s.topic, s.ai_summary, e.url, verdict, s.experiment_mode])

/-- The operator events: the mode radio of the input page, the Start Agent
button, and the Approve / Reject / Restart / Test Another Topic buttons. -/
inductive Event where
  | setMode (mode : String)
  | start (topic : String) (lookup : LookupResult) (extract : ExtractResult)
  | approve
  | reject
  | restart
  | next
  deriving DecidableEq, Repr

/-- One operator event applied to the session: each widget only exists on
its own page, so an event on the wrong step is a no-op.  Returns the new
state and the rows appended to the CSV log (app.py lines 61-220).
Approve and Reject (lines 183-193) call log_to_csv first; if that raised
(research_data absent) the assignments after it would not run. -/
def applyEvent (s : SessionState) (ev : Event) (ts : String) :
    SessionState × List (List String) :=
  match ev with
  | Event.setMode m =>
    if s.step = Step.input then ({ s with experiment_mode := m }, []) else (s, [])
  | Event.start topic lookup extract =>
    if s.step = Step.input then ((startAgent s topic lookup extract).1, []) else (s, [])
  | Event.approve =>
    if s.step = Step.review then
      match log_to_csv s ts "Verified Accurate" with
      | some row =>
        ({ s with verification_status := some "Verified Accurate",
                  step := Step.verified }, [row])
      | none => (s, [])
    else (s, [])
  | Event.reject =>
    if s.step = Step.review then
      match log_to_csv s ts "Hallucination Detected" with
      | some row =>
        ({ s with verification_status := some "Hallucination Detected",
                  step := Step.verified }, [row])
      | none => (s, [])
    else (s, [])
  | Event.restart =>
    if s.step = Step.review then ({ s with step := Step.input }, []) else (s, [])
  | Event.next =>
    if s.step = Step.verified then ({ s with step := Step.input }, []) else (s, [])

/-- A sequence of operator events, each with the wall-clock timestamp of its
occurrence; collects the CSV rows appended, in order. -/
def runEvents : SessionState → List (Event × String) → SessionState × List (List String)
  | s, [] => (s, [])
  | s, (ev, ts) :: rest =>
    let p := applyEvent s ev ts
    let q := runEvents p.1 rest
    (q.1, p.2 ++ q.2)

/-- The states a session can actually be in: the initial state and
everything reachable from it by operator events. -/
inductive Reachable : SessionState → Prop where
  | init : Reachable initialState
  | step (s : SessionState) (ev : Event) (ts : String) :
      Reachable s → Reachable (applyEvent s ev ts).1

/-- The header row written to experiment_results.csv by the module-level
CSV logging setup of app.py (lines 32-39). -/
def header : List String :=
  ["timestamp", "topic", "agent_claim", "source_url", "human_verdict",
   "verification_mode"]

/-- The module-level CSV logging setup of app.py (lines 29-39): a file is
modelled as Option (List row), none meaning the path does not exist.  If the
file does not exist, create it holding exactly the header row; otherwise
leave it untouched. -/
def ensureInitialized (file : Option (List (List String))) :
    Option (List (List String)) :=
  match file with
  | none => some [header]
  | some rows => some rows

/-- n runs of the module-level CSV setup on the same path (the block runs
once per script execution, so once per Streamlit rerun). -/
def ensureInitializedN : Nat → Option (List (List String)) → Option (List (List String))
  | 0, file => file
  | n + 1, file => ensureInitializedN n (ensureInitialized file)

/-- The header row written by save_result in app_backup.py (line 36). -/
def backupHeader : List String :=
  ["Timestamp", "Topic", "AI_Claim", "Source_URL", "Human_Verdict",
   "Interface_Mode"]

/-- The save_result helper of app_backup.py (lines 28-39): opens the file in
append mode (creating it when absent), writes its header first when the file
did not exist, then appends the data row. -/
def save_result (file : Option (List (List String)))
    (ts topic claim url verdict mode : String) : List (List String) :=
  match file with
  | none => [backupHeader, [ts, topic, claim, url, verdict, mode]]
  | some rows => rows ++ [[ts, topic, claim, url, verdict, mode]]

/-- Is the first list a prefix of the second, character by character. -/
def charListPref : List Char → List Char → Bool
  | [], _ => true
  | _ :: _, [] => false
  | a :: as, b :: bs => a = b && charListPref as bs

/-- Does the needle occur as a contiguous run inside the haystack. -/
def charListSub (needle : List Char) : List Char → Bool
  | [] => needle.isEmpty
  | b :: bs => charListPref needle (b :: bs) || charListSub needle bs

/-- Substring test on strings. -/
def strHasSub (hay needle : String) : Bool :=
  charListSub needle.toList hay.toList

/-- A rendered view is the list of text fragments the page shows, in order;
the view contains a text when some fragment has it as a substring. -/
def viewContains (view : List String) (needle : String) : Bool :=
  view.any (fun f => strHasSub f needle)

/-- Models ai_summary.replace applied to the dollar sign with a
backslash-dollar replacement (app.py line 131): every occurrence of the
one-character pattern is replaced. -/
def safeSummary (s : String) : String :=
  String.mk ((s.toList.map (fun c => if c = '$' then ['\\', '$'] else [c])).flatten)

/-- The opening of the styled reader-mode div rendered by st.markdown in
app.py (lines 148-155), up to the interpolated content. -/
def divOpen : String :=
  "\n                    <div style=\"border: 1px solid #ddd; border-radius: 8px; padding: 20px; height: 400px; overflow-y: auto; background-color: #f9f9f9; color: #2c3e50; font-family: \x27Arial\x27, sans-serif; font-size: 15px; line-height: 1.6; box-shadow: inset 0 0 10px rgba(0,0,0,0.05);\">\n                        "

/-- The closing of the styled reader-mode div (after the interpolated
content). -/
def divClose : String :=
  "\n                    </div>\n                    "

/-- The review page of app.py (lines 122-167) as the list of text fragments
it renders, in order: page header, the topic expander, the mode-dependent
middle (split screen with source URL and reader-mode content when
experiment_mode is Source-Grounded (Experimental); otherwise the claim-only
view, which still renders the Source URL markdown line when research_data
is set, lines 163-164), and the verification-decision footer. -/
def renderReview (s : SessionState) : List String :=
  let safe := safeSummary s.ai_summary
  ["Step 2: Human Verification Loop",
   "**" ++ s.topic ++ "**",
   "<br>"] ++
  (if s.experiment_mode = "Source-Grounded (Experimental)" then
    ["🤖 AI Generated Claim", safe,
     "The agent extracted this claim automatically.",
     "📄 Source Context (Reader Mode)"] ++
    (match s.research_data with
     | some e =>
       ["**Source URL:** [" ++ e.url ++ "](" ++ e.url ++ ")",
        divOpen ++ e.content ++ divClose,
        "This window shows the exact raw text the AI analyzed."]
     | none => [])
  else
    ["🤖 AI Generated Claim", safe,
     "Standard AI View. Notice how you have no immediate way to verify this claim."] ++
    (match s.research_data with
     | some e => ["**Source URL:** [" ++ e.url ++ "](" ++ e.url ++ ")"]
     | none => [])) ++
  ["---", "### 🔍 Verification Decision"]

/-- The log_data dictionary shown by st.json on the verified page
(app.py lines 208-215); building it dereferences research_data[url]. -/
structure LogView where
  topic : String
  agent_claim : String
  source_url : String
  human_verdict : Option String
  mode_used : String
  deriving DecidableEq, Repr

/-- The verified page's log_data summary (app.py lines 208-215): none when
research_data is absent, in which case the Python dict access would raise. -/
def logData (s : SessionState) : Option LogView :=
  s.research_data.map (fun e =>
    { topic := s.topic
      agent_claim := s.ai_summary
      source_url := e.url
      human_verdict := s.verification_status
      mode_used := s.experiment_mode })

/-- One complete verdicted trial as the operator drives it: the mode picked
on the input page, the topic, what the two collaborator calls return, the
verdict choice (true approve, false reject), and the wall-clock timestamp
at which the verdict lands. -/
structure TrialInput where
  mode : String
  topic : String
  evidence : Evidence
  claim : String
  approve : Bool
  ts : String
  deriving DecidableEq, Repr

/-- The verdict literal the buttons pass to log_to_csv
(app.py lines 184 and 190). -/
def verdictOf (b : Bool) : String :=
  if b then "Verified Accurate" else "Hallucination Detected"

/-- The event sequence of one verdicted trial: pick the mode, start the
agent (lookup succeeds, extraction succeeds), give the verdict, press
Test Another Topic. -/
def trialEvents (t : TrialInput) : List (Event × String) :=
  [(Event.setMode t.mode, t.ts),
   (Event.start t.topic (LookupResult.found t.evidence) (ExtractResult.ok t.claim), t.ts),
   ((if t.approve then Event.approve else Event.reject), t.ts),
   (Event.next, t.ts)]

/-- The CSV row such a trial appends. -/
def mkRow (t : TrialInput) : List String :=
  [t.ts, t.topic, t.claim, t.evidence.url, verdictOf t.approve, t.mode]

/-- The session state after one verdicted trial: every field was overwritten
during the trial, so it does not depend on the state before. -/
def afterTrial (t : TrialInput) : SessionState :=
  { step := Step.input
    topic := t.topic
    research_data := some t.evidence
    ai_summary := t.claim
    verification_status := some (verdictOf t.approve)
    experiment_mode := t.mode }

/-- A run of consecutive verdicted trials. -/
def runTrials (s : SessionState) (ts : List TrialInput) :
    SessionState × List (List String) :=
  runEvents s (ts.map trialEvents).flatten

/-- The evidence record of the concrete scenario of the spec. -/
def evA : Evidence :=
  { url := "https://example.com/a", content := "Canberra is the capital of Australia." }

/-- The extracted claim of the concrete scenario of the spec. -/
def claimA : String := "Canberra is the capital of Australia."

/-- The review-page state reached by starting the agent on the concrete
scenario from a fresh session. -/
def c8Review : SessionState :=
  (applyEvent initialState
    (Event.start "Capital of Australia" (LookupResult.found evA) (ExtractResult.ok claimA))
    "t0").1

/-- Evidence whose content strictly extends the extracted claim, so that
claim text and evidence content can be told apart in a rendered view. -/
def evB : Evidence :=
  { url := "https://example.com/a"
    content := "Canberra is the capital of Australia. It has been the capital city since 1913." }

/-- The claim extracted from evB in the blind-mode scenario. -/
def claimB : String := "Canberra is the capital of Australia."

/-- A blind-mode review state reached from a fresh session: the operator
picks Blind Mode (Control) on the input page and starts the agent. -/
def blindReview : SessionState :=
  (applyEvent
    ((applyEvent initialState (Event.setMode "Blind Mode (Control)") "t0").1)
    (Event.start "Capital of Australia" (LookupResult.found evB) (ExtractResult.ok claimB))
    "t0").1

/-- The invariant of claim C10: off the input page, the topic is non-empty
and the evidence is present. -/
def Inv (s : SessionState) : Prop :=
  (s.step = Step.review ∨ s.step = Step.verified) →
    s.topic ≠ "" ∧ s.research_data.isSome = true

lemma ensureInitializedN_some (n : Nat) :
    ∀ rows : List (List String), ensureInitializedN n (some rows) = some rows := by
  induction n with
  | zero => intro rows; rfl
  | succ k ih => intro rows; simpa [ensureInitializedN, ensureInitialized] using ih rows

lemma runEvents_append (l1 : List (Event × String)) :
    ∀ (s : SessionState) (l2 : List (Event × String)),
      runEvents s (l1 ++ l2) =
        ((runEvents (runEvents s l1).1 l2).1,
         (runEvents s l1).2 ++ (runEvents (runEvents s l1).1 l2).2) := by
  induction l1 with
  | nil => intro s l2; simp [runEvents]
  | cons p rest ih =>
    intro s l2
    obtain ⟨ev, ts⟩ := p
    simp [runEvents, ih, List.append_assoc]

lemma runEvents_trial (s : SessionState) (t : TrialInput)
    (hs : s.step = Step.input) (ht : t.topic ≠ "") :
    runEvents s (trialEvents t) = (afterTrial t, [mkRow t]) := by
  cases hb : t.approve <;>
    simp [trialEvents, runEvents, applyEvent, startAgent, log_to_csv, afterTrial,
      mkRow, verdictOf, hs, ht, hb]

lemma runTrials_spec :
    ∀ (ts : List TrialInput) (s : SessionState), s.step = Step.input →
      (∀ t ∈ ts, t.topic ≠ "") →
      (runTrials s ts).2 = ts.map mkRow ∧ (runTrials s ts).1.step = Step.input := by
  intro ts
  induction ts with
  | nil => intro s hs _; exact ⟨rfl, hs⟩
  | cons t rest ih =>
    intro s hs h
    have ht : t.topic ≠ "" := h t (List.mem_cons_self t rest)
    have hrest : ∀ x ∈ rest, x.topic ≠ "" := fun x hx => h x (List.mem_cons_of_mem t hx)
    obtain ⟨h1, h2⟩ := ih (afterTrial t) rfl hrest
    unfold runTrials at h1 h2 ⊢
    rw [List.map_cons, List.flatten_cons, runEvents_append,
      runEvents_trial s t hs ht]
    exact ⟨by simpa using h1, by simpa using h2⟩

lemma inv_initial : Inv initialState := by
  intro hstep
  rcases hstep with h | h <;> simp [initialState] at h

lemma inv_applyEvent (s : SessionState) (ev : Event) (ts : String) (h : Inv s) :
    Inv (applyEvent s ev ts).1 := by
  cases ev with
  | setMode m =>
    by_cases hs : s.step = Step.input
    · intro hstep
      exfalso
      simp [applyEvent, hs] at hstep
    · simpa [applyEvent, hs] using h
  | start topic lookup extract =>
    by_cases hs : s.step = Step.input
    · by_cases htop : topic = ""
      · simpa [applyEvent, hs, startAgent, htop] using h
      · cases lookup with
        | failure msg => simpa [applyEvent, hs, startAgent, htop] using h
        | empty => simpa [applyEvent, hs, startAgent, htop] using h
        | found e =>
          cases extract with
          | failure msg =>
            intro hstep
            exfalso
            simp [applyEvent, hs, startAgent, htop] at hstep
          | ok c =>
            intro _
            refine ⟨?_, ?_⟩ <;> simp [applyEvent, hs, startAgent, htop]
    · simpa [applyEvent, hs] using h
  | approve =>
    by_cases hs : s.step = Step.review
    · cases hrd : s.research_data with
      | none => simpa [applyEvent, hs, log_to_csv, hrd] using h
      | some e =>
        intro _
        have hinv := h (Or.inl hs)
        exact ⟨by simpa [applyEvent, hs, log_to_csv, hrd] using hinv.1,
               by simp [applyEvent, hs, log_to_csv, hrd]⟩
    · simpa [applyEvent, hs] using h
  | reject =>
    by_cases hs : s.step = Step.review
    · cases hrd : s.research_data with
      | none => simpa [applyEvent, hs, log_to_csv, hrd] using h
      | some e =>
        intro _
        have hinv := h (Or.inl hs)
        exact ⟨by simpa [applyEvent, hs, log_to_csv, hrd] using hinv.1,
               by simp [applyEvent, hs, log_to_csv, hrd]⟩
    · simpa [applyEvent, hs] using h
  | restart =>
    by_cases hs : s.step = Step.review
    · intro hstep
      exfalso
      simp [applyEvent, hs] at hstep
    · simpa [applyEvent, hs] using h
  | next =>
    by_cases hs : s.step = Step.verified
    · intro hstep
      exfalso
      simp [applyEvent, hs] at hstep
    · simpa [applyEvent, hs] using h

lemma reachable_inv {s : SessionState} (h : Reachable s) : Inv s := by
  induction h with
  | init => exact inv_initial
  | step s ev ts _ ih => exact inv_applyEvent s ev ts ih

/-- C1: the claim states that in BLIND mode the rendered review view contains
the claim text but neither the evidence URL nor the evidence content.  The
code violates this: in the blind-mode branch of the review page, app.py
(lines 163-164) still renders the Source URL markdown line whenever
research_data is set, which is always the case in REVIEW.  This theorem
evaluates the embedded review renderer at a blind-mode review state reached
from a fresh session: the view contains the claim text and the evidence URL,
and not the evidence content.  The rendered URL contradicts the blind-mode
caption the same branch prints (the reviewer supposedly has no immediate way
to verify the claim) and the backup variant, which hides the source
entirely in blind mode. -/
theorem c1_blind_view_leaks_url :
    blindReview.experiment_mode = "Blind Mode (Control)" ∧
    blindReview.step = Step.review ∧
    viewContains (renderReview blindReview) claimB = true ∧
    viewContains (renderReview blindReview) evB.url = true ∧
    viewContains (renderReview blindReview) evB.content = false := by
  refine ⟨rfl, rfl, ?_, ?_, ?_⟩ <;> decide

/-- C2: for any number n of runs of the log-store initialization on the same
path, exactly one header row is written, it is the first row (so it precedes
any data row), and nothing is written when the backing file already
existed. -/
theorem c2_header_written_once (n : Nat) (rows : List (List String)) (h : 1 ≤ n) :
    ensureInitializedN n none = some [header] ∧
    [header].count header = 1 ∧
    ensureInitializedN n (some rows) = some rows := by
  obtain ⟨k, rfl⟩ : ∃ k, n = k + 1 := ⟨n - 1, by omega⟩
  refine ⟨?_, by simp, ensureInitializedN_some _ _⟩
  show ensureInitializedN k (ensureInitialized none) = some [header]
  simpa [ensureInitialized] using ensureInitializedN_some k [header]

theorem c2_header_written_once_witness :
    ensureInitializedN 3 none = some [header] ∧
    [header].count header = 1 ∧
    ensureInitializedN 3 (some [["x"]]) = some [["x"]] :=
  c2_header_written_once 3 [["x"]] (by decide)

/-- C3: for a sequence of verdicted trials, the rows appended to the log are
exactly one row per trial, in submission order, so the file (header plus the
appended rows) has length K+1 for K trials. -/
theorem c3_log_rows_in_submission_order (s : SessionState) (ts : List TrialInput)
    (hs : s.step = Step.input) (h : ∀ t ∈ ts, t.topic ≠ "") :
    (runTrials s ts).2 = ts.map mkRow ∧
    (header :: (runTrials s ts).2).length = ts.length + 1 := by
  obtain ⟨h1, _⟩ := runTrials_spec ts s hs h
  exact ⟨h1, by simp [h1]⟩

def trial1 : TrialInput :=
  { mode := "Blind Mode (Control)", topic := "q1", evidence := evA,
    claim := "k1", approve := true, ts := "2025-01-01 10:00:00" }

def trial2 : TrialInput :=
  { mode := "Source-Grounded (Experimental)", topic := "q2", evidence := evB,
    claim := "k2", approve := false, ts := "2025-01-01 10:05:00" }

theorem c3_log_rows_in_submission_order_witness :
    (runTrials initialState [trial1, trial2]).2 = [trial1, trial2].map mkRow ∧
    (header :: (runTrials initialState [trial1, trial2]).2).length =
      [trial1, trial2].length + 1 :=
  c3_log_rows_in_submission_order initialState [trial1, trial2] rfl (by decide)

/-- C4 counterexample: the claim states that when either collaborator call
raises, no partial Trial state (topic, evidence, claim) is created for that
attempt.  When the claim-extraction call raises AFTER a successful lookup,
app.py has already assigned topic and research_data (lines 100-101 run
before the llm.invoke of line 113), so the attempt leaves partial Trial
state behind even though the session stays in INTAKE and the error is
reported. -/
theorem c4_extract_failure_partial_state :
    (startAgent initialState "Capital of Australia" (LookupResult.found evA)
        (ExtractResult.failure "timeout")).1.step = Step.input ∧
    (startAgent initialState "Capital of Australia" (LookupResult.found evA)
        (ExtractResult.failure "timeout")).1.topic = "Capital of Australia" ∧
    (startAgent initialState "Capital of Australia" (LookupResult.found evA)
        (ExtractResult.failure "timeout")).1.research_data = some evA ∧
    (startAgent initialState "Capital of Australia" (LookupResult.found evA)
        (ExtractResult.failure "timeout")).2 = some ("Error: " ++ "timeout") :=
  ⟨rfl, rfl, rfl, rfl⟩

/-- C4 (amended): a failing collaborator call is caught and reported with
the underlying message and the session stays in INTAKE; when the
evidence-lookup call raises, no Trial state at all is created for the
attempt, while when the claim-extraction call raises after a successful
lookup, the topic and evidence fields have already been set (the claim
field has not) and the session still stays in INTAKE. -/
theorem c4_collaborator_failure_stays_intake (s : SessionState) (topic msg : String)
    (e : Evidence) (ex : ExtractResult) (hs : s.step = Step.input) (ht : topic ≠ "") :
    startAgent s topic (LookupResult.failure msg) ex = (s, some ("Error: " ++ msg)) ∧
    (startAgent s topic (LookupResult.found e) (ExtractResult.failure msg)).1 =
      { s with topic := topic, research_data := some e } ∧
    (startAgent s topic (LookupResult.found e) (ExtractResult.failure msg)).1.step =
      Step.input ∧
    (startAgent s topic (LookupResult.found e) (ExtractResult.failure msg)).2 =
      some ("Error: " ++ msg) := by
  refine ⟨?_, ?_, ?_, ?_⟩ <;> simp [startAgent, ht, hs]

theorem c4_collaborator_failure_stays_intake_witness :
    startAgent initialState "Capital of Australia" (LookupResult.failure "timeout")
      (ExtractResult.ok claimA) = (initialState, some ("Error: " ++ "timeout")) ∧
    (startAgent initialState "Capital of Australia" (LookupResult.found evA)
        (ExtractResult.failure "timeout")).1 =
      { initialState with topic := "Capital of Australia", research_data := some evA } ∧
    (startAgent initialState "Capital of Australia" (LookupResult.found evA)
        (ExtractResult.failure "timeout")).1.step = Step.input ∧
    (startAgent initialState "Capital of Australia" (LookupResult.found evA)
        (ExtractResult.failure "timeout")).2 = some ("Error: " ++ "timeout") :=
  c4_collaborator_failure_stays_intake initialState "Capital of Australia" "timeout"
    evA (ExtractResult.ok claimA) rfl (by decide)

/-- C5 counterexample: the claim states the header written to the file names
exactly the columns timestamp, topic, agent_claim, source_url, human_verdict,
verification_mode.  The save_result variant of app_backup.py (cited by the
claim) writes the header Timestamp, Topic, AI_Claim, Source_URL,
Human_Verdict, Interface_Mode instead when it creates the file. -/
theorem c5_backup_header_differs :
    save_result none "2025-01-01 10:00:00" "t" "c" "u" "v" "m" =
      [backupHeader, ["2025-01-01 10:00:00", "t", "c", "u", "v", "m"]] ∧
    backupHeader ≠ header :=
  ⟨rfl, by decide⟩

/-- C5 (amended): every data row appended by app.py matches the exact
six-column schema and order timestamp, topic, agent_claim, source_url,
human_verdict, verification_mode, always including the trial's mode, and the
header app.py writes names exactly these columns in this order; the
app_backup.py variant appends its data rows with the same six fields in the
same order, but the header it writes on a fresh file uses the variant names
Timestamp, Topic, AI_Claim, Source_URL, Human_Verdict, Interface_Mode. -/
theorem c5_schema (s : SessionState) (e : Evidence) (ts verdict : String)
    (rows : List (List String)) (h : s.research_data = some e) :
    header = ["timestamp", "topic", "agent_claim", "source_url", "human_verdict",
      "verification_mode"] ∧
    log_to_csv s ts verdict =
      some [ts, s.topic, s.ai_summary, e.url, verdict, s.experiment_mode] ∧
    ([ts, s.topic, s.ai_summary, e.url, verdict, s.experiment_mode] : List String).length =
      header.length ∧
    save_result (some rows) ts s.topic s.ai_summary e.url verdict s.experiment_mode =
      rows ++ [[ts, s.topic, s.ai_summary, e.url, verdict, s.experiment_mode]] ∧
    save_result none ts s.topic s.ai_summary e.url verdict s.experiment_mode =
      [backupHeader, [ts, s.topic, s.ai_summary, e.url, verdict, s.experiment_mode]] := by
  exact ⟨rfl, by simp [log_to_csv, h], rfl, rfl, rfl⟩

theorem c5_schema_witness :
    header = ["timestamp", "topic", "agent_claim", "source_url", "human_verdict",
      "verification_mode"] ∧
    log_to_csv c8Review "2025-01-01 12:00:00" "Verified Accurate" =
      some ["2025-01-01 12:00:00", c8Review.topic, c8Review.ai_summary, evA.url,
        "Verified Accurate", c8Review.experiment_mode] ∧
    (["2025-01-01 12:00:00", c8Review.topic, c8Review.ai_summary, evA.url,
        "Verified Accurate", c8Review.experiment_mode] : List String).length =
      header.length ∧
    save_result (some [header]) "2025-01-01 12:00:00" c8Review.topic c8Review.ai_summary
        evA.url "Verified Accurate" c8Review.experiment_mode =
      [header] ++ [["2025-01-01 12:00:00", c8Review.topic, c8Review.ai_summary, evA.url,
        "Verified Accurate", c8Review.experiment_mode]] ∧
    save_result none "2025-01-01 12:00:00" c8Review.topic c8Review.ai_summary
        evA.url "Verified Accurate" c8Review.experiment_mode =
      [backupHeader, ["2025-01-01 12:00:00", c8Review.topic, c8Review.ai_summary, evA.url,
        "Verified Accurate", c8Review.experiment_mode]] :=
  c5_schema c8Review evA "2025-01-01 12:00:00" "Verified Accurate" [header] rfl

/-- C6: when the evidence lookup returns no result, the Start Agent handler
reports the error and changes nothing: the session state is exactly what it
was (so it stays in INTAKE and no Trial fields are written) and no row is
appended to the log for that attempt. -/
theorem c6_empty_lookup_no_change (s : SessionState) (topic ts : String)
    (ex : ExtractResult) (hs : s.step = Step.input) (ht : topic ≠ "") :
    startAgent s topic LookupResult.empty ex =
      (s, some "No results found. Try a different topic.") ∧
    applyEvent s (Event.start topic LookupResult.empty ex) ts = (s, []) := by
  constructor <;> simp [applyEvent, startAgent, ht, hs]

theorem c6_empty_lookup_no_change_witness :
    startAgent initialState "Capital of Australia" LookupResult.empty
      (ExtractResult.ok claimA) =
      (initialState, some "No results found. Try a different topic.") ∧
    applyEvent initialState
      (Event.start "Capital of Australia" LookupResult.empty (ExtractResult.ok claimA))
      "t0" = (initialState, []) :=
  c6_empty_lookup_no_change initialState "Capital of Australia" "t0"
    (ExtractResult.ok claimA) rfl (by decide)

/-- C7: firing restart from REVIEW only sets the step back to input: for
every session state in REVIEW, however the trial got there, the result is
the same state with step INTAKE and the list of appended log rows is
empty. -/
theorem c7_restart_never_logs (s : SessionState) (ts : String)
    (hs : s.step = Step.review) :
    applyEvent s Event.restart ts = ({ s with step := Step.input }, []) := by
  simp [applyEvent, hs]

theorem c7_restart_never_logs_witness :
    applyEvent c8Review Event.restart "t9" =
      ({ c8Review with step := Step.input }, []) :=
  c7_restart_never_logs c8Review "t9" rfl

/-- C8: the concrete scenario of the spec.  From a fresh session, starting
the agent on the topic Capital of Australia with the given evidence and
extracted claim reaches REVIEW; approving appends one row with verdict
Verified Accurate (the code's literal for ACCURATE), source_url
https://example.com/a and topic Capital of Australia; rejecting instead
appends the same row with verdict Hallucination Detected (the code's
literal for HALLUCINATION) and every other field unchanged. -/
theorem c8_concrete_verdict_rows :
    c8Review.step = Step.review ∧
    c8Review.topic = "Capital of Australia" ∧
    (applyEvent c8Review Event.approve "2025-01-01 12:00:00").2 =
      [["2025-01-01 12:00:00", "Capital of Australia", claimA,
        "https://example.com/a", "Verified Accurate",
        "Source-Grounded (Experimental)"]] ∧
    (applyEvent c8Review Event.reject "2025-01-01 12:00:00").2 =
      [["2025-01-01 12:00:00", "Capital of Australia", claimA,
        "https://example.com/a", "Hallucination Detected",
        "Source-Grounded (Experimental)"]] :=
  ⟨rfl, rfl, rfl, rfl⟩

/-- The session state after the concrete approved trial once the operator
presses Test Another Topic. -/
def c9AfterNext : SessionState :=
  (applyEvent ((applyEvent c8Review Event.approve "t1").1) Event.next "t2").1

/-- C9 counterexample: the claim states that firing next from LOGGED clears
the trial fields, leaving no residual trial data.  The Test Another Topic
handler of app.py (lines 218-220) only sets step back to input: after it
fires, topic, research_data and ai_summary still hold the previous trial's
values. -/
theorem c9_next_leaves_residual :
    (applyEvent c8Review Event.approve "t1").1.step = Step.verified ∧
    c9AfterNext.step = Step.input ∧
    c9AfterNext.topic = "Capital of Australia" ∧
    c9AfterNext.research_data = some evA ∧
    c9AfterNext.ai_summary = claimA :=
  ⟨rfl, rfl, rfl, rfl, rfl⟩

/-- C9 (amended): firing next from LOGGED returns the session to INTAKE and
appends nothing to the log, but it does not clear the trial fields: the
resulting state is the LOGGED state with only the step changed, so topic,
evidence and claim keep their values until the next successful start
overwrites them. -/
theorem c9_next_returns_to_intake (s : SessionState) (ts : String)
    (hs : s.step = Step.verified) :
    applyEvent s Event.next ts = ({ s with step := Step.input }, []) := by
  simp [applyEvent, hs]

theorem c9_next_returns_to_intake_witness :
    applyEvent ((applyEvent c8Review Event.approve "t1").1) Event.next "t2" =
      ({ (applyEvent c8Review Event.approve "t1").1 with step := Step.input }, []) :=
  c9_next_returns_to_intake ((applyEvent c8Review Event.approve "t1").1) "t2" rfl

/-- C10: in every reachable session state in REVIEW or LOGGED, the topic is
non-empty and the evidence is present, so the dereferences of the evidence
URL made by the review display, by log_to_csv and by the logged-summary
log_data all succeed. -/
theorem c10_review_logged_evidence_present (s : SessionState) (ts v : String)
    (h : Reachable s) (hs : s.step = Step.review ∨ s.step = Step.verified) :
    s.topic ≠ "" ∧ s.research_data.isSome = true ∧
    (log_to_csv s ts v).isSome = true ∧ (logData s).isSome = true := by
  obtain ⟨h1, h2⟩ := reachable_inv h hs
  refine ⟨h1, h2, ?_, ?_⟩ <;> cases hrd : s.research_data <;>
    simp_all [log_to_csv, logData]

theorem c10_review_logged_evidence_present_witness :
    c8Review.topic ≠ "" ∧ c8Review.research_data.isSome = true ∧
    (log_to_csv c8Review "t1" "Verified Accurate").isSome = true ∧
    (logData c8Review).isSome = true :=
  c10_review_logged_evidence_present c8Review "t1" "Verified Accurate"
    (Reachable.step initialState
      (Event.start "Capital of Australia" (LookupResult.found evA)
        (ExtractResult.ok claimA)) "t0" Reachable.init)
    (Or.inl rfl)

end App
